import Mathlib

/-!
Verification of the booking-form validation schema and the booking store
of the royal-blue-rooms reservation app.

The validation layer is a shallow embedding of `bookingSchema` and
`onSubmit` from `src/pages/BookingForm.tsx` (a zod object schema with a
cross-field `.refine`).  Zod semantics embedded here, following the zod v3
implementation:

* Every field of the object is parsed and its issues are collected, so all
  field-scoped errors are reported together (`ParseStatus.mergeObjectSync`
  iterates all key/value pairs after every field parser has run).
* A failing string check (`min`, `max`, `regex`, `email`) marks the parse
  "dirty" but not "aborted"; a failing `z.enum` (absent or unrecognized
  value) returns INVALID, which aborts the object parse.
* The `.refine` refinement of a `ZodEffects` runs only when the inner
  object parse is not aborted; its issue is appended after the field
  issues.  Hence the cross-field date check is skipped exactly when the
  `roomType` enum field aborted (all other fields of the form are strings,
  whose checks never abort).

Dates: the schema compares `new Date(checkInDate)` with
`new Date(checkOutDate)` using JavaScript `>`.  `parseDate` models the
timezone-independent part of the ECMAScript Date Time String Format
(date-only `YYYY-MM-DD`, interpreted at UTC midnight, and date-time forms
with a `Z` offset), returning the timestamp in milliseconds since an
epoch at year 0; strings outside this format (including host-specific
fallback formats and local-time forms) are modelled as not parsing, i.e.
an Invalid Date whose comparisons are all false.

The booking store (`BookingContext`) is consumed by the form but its
source is not part of the provided files; it is modelled from the spec
(sections 4.2, 7 and 8) where indicated.
-/

/-- The fields of the booking form that can carry a validation issue. -/
inductive FormField where
  | guestName
  | roomType
  | checkInDate
  | checkOutDate
  | contactNumber
  | email
  deriving DecidableEq, Repr

/-- Numeric value of an ASCII digit character. -/
def digitVal (c : Char) : Nat := c.toNat - 48

/-- Proleptic Gregorian leap-year rule (as used by ECMAScript dates). -/
def isLeapYear (y : Nat) : Bool := (y % 4 == 0 && y % 100 != 0) || y % 400 == 0

/-- Number of days in a month of a given year. -/
def daysInMonth (y m : Nat) : Nat :=
  if m = 2 then (if isLeapYear y then 29 else 28)
  else if m = 4 ∨ m = 6 ∨ m = 9 ∨ m = 11 then 30
  else 31

/-- Number of leap years strictly before year `y` (year 0 counts as leap). -/
def leapCount (y : Nat) : Nat := (y + 3) / 4 - (y + 99) / 100 + (y + 399) / 400

/-- Days elapsed in year `y` before the first day of month `m`. -/
def daysBeforeMonth (y m : Nat) : Nat :=
  (List.range (m - 1)).foldl (fun acc k => acc + daysInMonth y (k + 1)) 0

/-- Day index of the calendar date `y-m-d`, counting from day 0 = 0000-01-01.
This is order-isomorphic to the ECMAScript time value of the date, which is
all the schema uses (dates are only ever compared). -/
def dayNumber (y m d : Nat) : Nat :=
  365 * y + leapCount y + daysBeforeMonth y m + (d - 1)

/-- Milliseconds per day. -/
def msPerDay : Nat := 86400000

/-- Parse the optional time-of-day part of an ECMAScript date-time string,
restricted to the timezone-independent forms: absent (UTC midnight for a
date-only string) or `THH:mm` / `THH:mm:ss` with a `Z` offset.  Returns the
millisecond offset within the day. -/
def parseTimeZ : List Char → Option Nat
  | [] => some 0
  | ['T', h1, h2, ':', n1, n2, 'Z'] =>
    if [h1, h2, n1, n2].all Char.isDigit then
      let h := 10 * digitVal h1 + digitVal h2
      let n := 10 * digitVal n1 + digitVal n2
      if h ≤ 23 ∧ n ≤ 59 then some (3600000 * h + 60000 * n) else none
    else none
  | ['T', h1, h2, ':', n1, n2, ':', s1, s2, 'Z'] =>
    if [h1, h2, n1, n2, s1, s2].all Char.isDigit then
      let h := 10 * digitVal h1 + digitVal h2
      let n := 10 * digitVal n1 + digitVal n2
      let s := 10 * digitVal s1 + digitVal s2
      if h ≤ 23 ∧ n ≤ 59 ∧ s ≤ 59 then
        some (3600000 * h + 60000 * n + 1000 * s)
      else none
    else none
  | _ => none

/-- Model of `new Date(s).valueOf()` for the timezone-independent subset of
the ECMAScript Date Time String Format: `YYYY-MM-DD` with an optional
`Z`-offset time.  `none` models an Invalid Date (`NaN` time value). -/
def parseDate (s : String) : Option Nat :=
  match s.toList with
  | c1 :: c2 :: c3 :: c4 :: '-' :: c5 :: c6 :: '-' :: c7 :: c8 :: rest =>
    if [c1, c2, c3, c4, c5, c6, c7, c8].all Char.isDigit then
      let y := 1000 * digitVal c1 + 100 * digitVal c2 + 10 * digitVal c3 + digitVal c4
      let m := 10 * digitVal c5 + digitVal c6
      let d := 10 * digitVal c7 + digitVal c8
      if 1 ≤ m ∧ m ≤ 12 ∧ 1 ≤ d ∧ d ≤ daysInMonth y m then
        match parseTimeZ rest with
        | some t => some (msPerDay * dayNumber y m d + t)
        | none => none
      else none
    else none
  | _ => none

/-- JavaScript `>` on two `Date` values: true only when both time values are
numbers (not `NaN`) and the left one is greater. -/
def jsGreater : Option Nat → Option Nat → Bool
  | some x, some y => decide (y < x)
  | _, _ => false

/-- Characters allowed in the local part of an email address by the zod
email regular expression (character class `[A-Z0-9_'+\-.]`, case
insensitive; code 39 is the apostrophe). -/
def isEmailLocalChar (c : Char) : Bool :=
  c.isAlphanum || c = '_' || c.toNat = 39 || c = '+' || c = '-' || c = '.'

/-- Characters allowed as the last character of the local part
(character class `[A-Z0-9_+\-]`, case insensitive). -/
def isEmailLocalEnd (c : Char) : Bool :=
  c.isAlphanum || c = '_' || c = '+' || c = '-'

/-- No two consecutive dots (the lookahead over the whole string). -/
def noDoubleDot : List Char → Bool
  | c1 :: c2 :: rest =>
    if c1 = '.' ∧ c2 = '.' then false else noDoubleDot (c2 :: rest)
  | _ => true

/-- Split a character list at the first `@`, if any. -/
def splitFirstAt : List Char → Option (List Char × List Char)
  | [] => none
  | c :: rest =>
    if c = '@' then some ([], rest)
    else
      match splitFirstAt rest with
      | none => none
      | some (l, r) => some (c :: l, r)

/-- Split a character list on dots (keeping empty segments). -/
def splitDots : List Char → List (List Char)
  | [] => [[]]
  | c :: rest =>
    let r := splitDots rest
    if c = '.' then [] :: r
    else
      match r with
      | [] => [[c]]
      | h :: t => (c :: h) :: t

/-- The local part of an email: nonempty, all characters in the local class,
last character in the restricted end class. -/
def emailLocalOk (l : List Char) : Bool :=
  match l.reverse with
  | [] => false
  | last :: front => isEmailLocalEnd last && front.all isEmailLocalChar

/-- A domain label: `[A-Z0-9][A-Z0-9\-]*`, case insensitive. -/
def emailLabelOk (l : List Char) : Bool :=
  match l with
  | [] => false
  | h :: t => h.isAlphanum && t.all (fun c => c.isAlphanum || c = '-')

/-- The final domain segment: `[A-Z]{2,}`, case insensitive. -/
def emailTldOk (l : List Char) : Bool :=
  decide (2 ≤ l.length) && l.all Char.isAlpha

/-- The domain part: one or more labels each followed by a dot, then a
final alphabetic segment of length at least two. -/
def emailDomainOk (l : List Char) : Bool :=
  match (splitDots l).reverse with
  | tld :: l1 :: rest => emailTldOk tld && (l1 :: rest).all emailLabelOk
  | _ => false

/-- Model of the zod v3 email regular expression
`(?!\.)(?!.*\.\.)([A-Z0-9_'+\-.]*)[A-Z0-9_+\-]@([A-Z0-9][A-Z0-9\-]*\.)+[A-Z]{2,}`
(anchored, case insensitive), used by `z.string().email()`. -/
def emailOk (s : String) : Bool :=
  let cs := s.toList
  noDoubleDot cs &&
  (match cs with
   | [] => false
   | c :: _ => decide (c ≠ '.')) &&
  (match splitFirstAt cs with
   | none => false
   | some (loc, dom) => emailLocalOk loc && emailDomainOk dom)

/-- The untrusted field values arriving at the schema from the form
boundary: text inputs always yield strings; the `roomType` select yields
`undefined` until a value is chosen (modelled as `none`); `idProof` is an
optional field. -/
structure Candidate where
  guestName : String
  roomType : Option String
  checkInDate : String
  checkOutDate : String
  contactNumber : String
  email : String
  idProof : Option String
  deriving DecidableEq, Repr

/-- The fixed room-type enumeration of `z.enum` in `bookingSchema`. -/
def roomTypes : List String := ["Single", "Double", "Deluxe", "Suite"]

/-- The `z.enum` check on `roomType`: present and one of the fixed values. -/
def roomTypeOk (c : Candidate) : Bool :=
  match c.roomType with
  | none => false
  | some r => roomTypes.contains r

/-- The `regex(/[0-9]{10}/)` (anchored) check on `contactNumber`:
exactly ten ASCII digits. -/
def contactNumberOk (s : String) : Bool :=
  s.length == 10 && s.toList.all Char.isDigit

def msgNameMin : String := "Name must be at least 2 characters"

def msgNameMax : String := "Name too long"

def msgRoomReq : String := "Please select a room type"

def msgRoomEnum : String := "Invalid enum value"

def msgInReq : String := "Check-in date is required"

def msgOutReq : String := "Check-out date is required"

def msgContact : String := "Contact number must be 10 digits"

def msgEmail : String := "Invalid email address"

def msgDateOrder : String := "Check-out date must be after check-in date"

/-- The field-level issues of `bookingSchema`, in object key order, as
collected by the zod object parser (every field is parsed and every
failing check contributes its issue). -/
def fieldIssues (c : Candidate) : List (FormField × String) :=
  (if c.guestName.length < 2 then [(FormField.guestName, msgNameMin)] else [])
  ++ (if 50 < c.guestName.length then [(FormField.guestName, msgNameMax)] else [])
  ++ (match c.roomType with
      | none => [(FormField.roomType, msgRoomReq)]
      | some r =>
        if roomTypes.contains r then [] else [(FormField.roomType, msgRoomEnum)])
  ++ (if c.checkInDate.length < 1 then [(FormField.checkInDate, msgInReq)] else [])
  ++ (if c.checkOutDate.length < 1 then [(FormField.checkOutDate, msgOutReq)] else [])
  ++ (if contactNumberOk c.contactNumber then [] else [(FormField.contactNumber, msgContact)])
  ++ (if emailOk c.email then [] else [(FormField.email, msgEmail)])

/-- The issue of the `.refine` cross-field date check.  Per zod semantics,
the refinement runs only when the inner object parse was not aborted; in
this schema only the `roomType` enum field can abort (all other fields are
strings, whose checks merely mark the parse dirty).  When it runs, it
fails exactly when `new Date(checkOutDate) > new Date(checkInDate)` is
false, reporting on path `checkOutDate`. -/
def refineIssues (c : Candidate) : List (FormField × String) :=
  if roomTypeOk c then
    if jsGreater (parseDate c.checkOutDate) (parseDate c.checkInDate) then []
    else [(FormField.checkOutDate, msgDateOrder)]
  else []

/-- All issues reported by a `safeParse` of `bookingSchema`: the field
issues in key order, then the refinement issue. -/
def validateIssues (c : Candidate) : List (FormField × String) :=
  fieldIssues c ++ refineIssues c

/-- The parsed output type of `bookingSchema` (`BookingFormData`). -/
structure BookingFormData where
  guestName : String
  roomType : String
  checkInDate : String
  checkOutDate : String
  contactNumber : String
  email : String
  idProof : Option String
  deriving DecidableEq, Repr

/-- `bookingSchema.safeParse`: success with the parsed data exactly when no
issue was produced, otherwise all collected issues.  (The second match arm
is unreachable: an absent `roomType` always contributes an issue.) -/
def validate (c : Candidate) : Except (List (FormField × String)) BookingFormData :=
  match c.roomType, validateIssues c with
  | some r, [] =>
    Except.ok
      { guestName := c.guestName
        roomType := r
        checkInDate := c.checkInDate
        checkOutDate := c.checkOutDate
        contactNumber := c.contactNumber
        email := c.email
        idProof := c.idProof }
  | _, issues => Except.error issues

/-- The record literal handed to `addBooking` in `onSubmit`
(BookingForm.tsx lines 52-60): each field is copied verbatim from the
validated form data; in particular the date strings are passed through
unchanged. -/
def submittedBooking (data : BookingFormData) : BookingFormData :=
  { guestName := data.guestName
    roomType := data.roomType
    checkInDate := data.checkInDate
    checkOutDate := data.checkOutDate
    contactNumber := data.contactNumber
    email := data.email
    idProof := data.idProof }

/-- The observable effects of the `onSubmit` handler besides the
`addBooking` call itself. -/
structure SubmitEffects where
  toastSuccess : Bool
  toastError : Bool
  formReset : Bool
  roomTypeCleared : Bool
  navigationScheduled : Bool
  deriving DecidableEq, Repr

/-- The `onSubmit` handler (BookingForm.tsx lines 50-72): the body runs
`addBooking` first; only if it returns normally do the success toast, the
`reset()` of the form, the clearing of the room-type selection and the
scheduled navigation to the guest list happen; if `addBooking` throws, the
`catch` block shows an error toast and nothing else runs. -/
def onSubmit (addBookingThrows : Bool) : SubmitEffects :=
  if addBookingThrows then
    { toastSuccess := false
      toastError := true
      formReset := false
      roomTypeCleared := false
      navigationScheduled := false }
  else
    { toastSuccess := true
      toastError := false
      formReset := true
      roomTypeCleared := true
      navigationScheduled := true }

/-- The booking status lifecycle states (spec section 4.2). -/
inductive BookingStatus where
  | Pending
  | Confirmed
  | CheckedIn
  | CheckedOut
  | Cancelled
  deriving DecidableEq, Repr

/-- Modelled from the spec: the allowed status-lifecycle edges of the
Booking Store (section 4.2); the store source (`BookingContext`) is not
among the provided files.  Edges: Confirmed to CheckedIn, CheckedIn to
CheckedOut, Confirmed to Cancelled, Pending to Confirmed, Pending to
Cancelled; everything else, in particular anything out of CheckedOut or
Cancelled, is disallowed. -/
def allowedTransition : BookingStatus → BookingStatus → Bool
  | BookingStatus.Confirmed, BookingStatus.CheckedIn => true
  | BookingStatus.CheckedIn, BookingStatus.CheckedOut => true
  | BookingStatus.Confirmed, BookingStatus.Cancelled => true
  | BookingStatus.Pending, BookingStatus.Confirmed => true
  | BookingStatus.Pending, BookingStatus.Cancelled => true
  | _, _ => false

/-- A stored booking record (spec section 3). -/
structure Booking where
  id : Nat
  data : BookingFormData
  status : BookingStatus
  createdAt : Nat
  deriving DecidableEq, Repr

/-- Modelled from the spec: the Booking Store state — the collection of
bookings in insertion order plus the fresh-id source. -/
structure Store where
  bookings : List Booking
  nextId : Nat
  deriving DecidableEq, Repr

/-- The store error taxonomy relevant to lookups and transitions
(spec section 7). -/
inductive StoreError where
  | NotFound
  | InvalidTransition
  deriving DecidableEq, Repr

/-- Modelled from the spec: `findById` (section 4.2 operations). -/
def findById (st : Store) (i : Nat) : Option Booking :=
  st.bookings.find? (fun b => b.id == i)

/-- Modelled from the spec: `transition(id, targetStatus)` — applies the
lifecycle adjacency rule; on an unknown id or a disallowed edge it returns
the error and the store unchanged. -/
def transition (st : Store) (i : Nat) (target : BookingStatus) :
    Except StoreError Booking × Store :=
  match findById st i with
  | none => (Except.error StoreError.NotFound, st)
  | some b =>
    if allowedTransition b.status target then
      let b2 : Booking := { b with status := target }
      (Except.ok b2,
       { st with bookings := st.bookings.map (fun x => if x.id = i then b2 else x) })
    else (Except.error StoreError.InvalidTransition, st)

/-- Modelled from the spec: `create(candidate)` — runs the section 4.1
validation; on success assigns the fresh id and `createdAt`, sets status
Confirmed and appends the record; on validation failure the store is
returned unchanged. -/
def create (st : Store) (c : Candidate) (now : Nat) :
    Except (List (FormField × String)) Booking × Store :=
  match validate c with
  | Except.error e => (Except.error e, st)
  | Except.ok d =>
    let b : Booking :=
      { id := st.nextId, data := d, status := BookingStatus.Confirmed, createdAt := now }
    (Except.ok b, { bookings := st.bookings ++ [b], nextId := st.nextId + 1 })

/-- Store invariant: every stored id is below the fresh-id source. -/
def idsBelowNext (st : Store) : Prop :=
  ∀ b ∈ st.bookings, b.id < st.nextId

/-- A fully valid candidate (the end-to-end scenario of spec section 8). -/
def jane : Candidate :=
  { guestName := "Jane Doe"
    roomType := some "Suite"
    checkInDate := "2025-06-01"
    checkOutDate := "2025-06-05"
    contactNumber := "9876543210"
    email := "jane@example.com"
    idProof := none }

/-- The parsed output for `jane`. -/
def janeData : BookingFormData :=
  { guestName := "Jane Doe"
    roomType := "Suite"
    checkInDate := "2025-06-01"
    checkOutDate := "2025-06-05"
    contactNumber := "9876543210"
    email := "jane@example.com"
    idProof := none }

/-- `jane` with the check-out date written in the equivalent date-time
form with an explicit UTC offset: the same calendar instant, a different
string representation. -/
def janeT : Candidate :=
  { jane with checkOutDate := "2025-06-05T00:00Z" }

/-- The parsed output for `janeT`. -/
def janeTData : BookingFormData :=
  { janeData with checkOutDate := "2025-06-05T00:00Z" }

/-- A valid candidate except for an unparseable (but non-empty)
check-in date. -/
def aliceBadCheckIn : Candidate :=
  { guestName := "Alice Smith"
    roomType := some "Double"
    checkInDate := "not-a-date"
    checkOutDate := "2025-06-05"
    contactNumber := "0123456789"
    email := "alice@example.org"
    idProof := none }

/-- A candidate with no room type selected and equal (valid) dates. -/
def noRoomEqualDates : Candidate :=
  { guestName := "John Doe"
    roomType := none
    checkInDate := "2025-07-10"
    checkOutDate := "2025-07-10"
    contactNumber := "5551234567"
    email := "john@example.com"
    idProof := none }

/-- A candidate with no room type selected and an unparseable check-in
date. -/
def noRoomBadCheckIn : Candidate :=
  { guestName := "Mary Major"
    roomType := none
    checkInDate := "not-a-date"
    checkOutDate := "2025-06-05"
    contactNumber := "5550001111"
    email := "mary@example.com"
    idProof := none }

/-- A candidate with a too-short guest name, a recognized room type and
equal dates (so both the name check and the cross-field check fail). -/
def shortNameEqualDates : Candidate :=
  { guestName := "J"
    roomType := some "Single"
    checkInDate := "2025-08-01"
    checkOutDate := "2025-08-01"
    contactNumber := "5559876543"
    email := "j@example.com"
    idProof := none }

/-- The empty store. -/
def storeEmpty : Store := { bookings := [], nextId := 0 }

/-- The booking created by `create storeEmpty jane 0`. -/
def janeBooking : Booking :=
  { id := 0, data := janeData, status := BookingStatus.Confirmed, createdAt := 0 }

/-- A store holding a single checked-out booking. -/
def storeCheckedOut : Store :=
  { bookings := [{ id := 0, data := janeData, status := BookingStatus.CheckedOut, createdAt := 0 }]
    nextId := 1 }

/-- The checked-out booking of `storeCheckedOut`. -/
def checkedOutBooking : Booking :=
  { id := 0, data := janeData, status := BookingStatus.CheckedOut, createdAt := 0 }

/-- Membership in a conditional singleton issue list. -/
theorem mem_ite_pair (p : Prop) [Decidable p] (x y : FormField × String) :
    (x ∈ (if p then [y] else ([] : List (FormField × String)))) ↔ (p ∧ x = y) := by
  by_cases h : p <;> simp [h]

/-- Normal form for membership in the issue list of `bookingSchema`: an
issue is reported exactly when the corresponding check fails, with the
cross-field issue additionally requiring that the enum field did not abort
the object parse. -/
theorem mem_validateIssues (c : Candidate) (f : FormField) (m : String) :
    ((f, m) ∈ validateIssues c) ↔
      (c.guestName.length < 2 ∧ f = FormField.guestName ∧ m = msgNameMin) ∨
      (50 < c.guestName.length ∧ f = FormField.guestName ∧ m = msgNameMax) ∨
      (c.roomType = none ∧ f = FormField.roomType ∧ m = msgRoomReq) ∨
      ((∃ r, c.roomType = some r ∧ roomTypes.contains r = false) ∧
        f = FormField.roomType ∧ m = msgRoomEnum) ∨
      (c.checkInDate.length < 1 ∧ f = FormField.checkInDate ∧ m = msgInReq) ∨
      (c.checkOutDate.length < 1 ∧ f = FormField.checkOutDate ∧ m = msgOutReq) ∨
      (contactNumberOk c.contactNumber = false ∧ f = FormField.contactNumber ∧ m = msgContact) ∨
      (emailOk c.email = false ∧ f = FormField.email ∧ m = msgEmail) ∨
      (roomTypeOk c = true ∧
        jsGreater (parseDate c.checkOutDate) (parseDate c.checkInDate) = false ∧
        f = FormField.checkOutDate ∧ m = msgDateOrder) := by
  cases hrt : c.roomType with
  | none =>
    simp [validateIssues, fieldIssues, refineIssues, roomTypeOk, hrt, mem_ite_pair,
      List.mem_append, Prod.mk.injEq]
  | some r =>
    by_cases hr : roomTypes.contains r <;>
      simp [validateIssues, fieldIssues, refineIssues, roomTypeOk, hrt, hr, mem_ite_pair,
        List.mem_append, Prod.mk.injEq]

/-- Claim C5: the contactNumber check passes exactly for strings of exactly
ten ASCII digits; `"12345"` fails, producing the field-scoped error on
contactNumber, and `"9876543210"` passes the check. -/
theorem contactNumber_exactly_ten_digits (c : Candidate) (s : String) :
    (contactNumberOk s = true ↔ (s.length = 10 ∧ ∀ ch ∈ s.toList, ch.isDigit = true)) ∧
    ((FormField.contactNumber, msgContact) ∈ validateIssues c ↔
      contactNumberOk c.contactNumber = false) ∧
    contactNumberOk "9876543210" = true ∧ contactNumberOk "12345" = false := by
  refine ⟨?_, ?_, by decide, by decide⟩
  · simp [contactNumberOk, List.all_eq_true]
  · rw [mem_validateIssues]
    simp [msgNameMin, msgNameMax, msgRoomReq, msgRoomEnum, msgInReq, msgOutReq,
      msgContact, msgEmail, msgDateOrder]

/-- Claim C2 (amended): every failing per-field check contributes its
field-scoped error and all are reported together; the cross-field error is
additionally reported whenever the enum field did not abort the object
parse — in particular when guestName is also invalid — but not when
roomType is absent or unrecognized. -/
theorem all_field_errors_reported (c : Candidate) :
    (((FormField.guestName, msgNameMin) ∈ validateIssues c) ↔ c.guestName.length < 2) ∧
    (((FormField.guestName, msgNameMax) ∈ validateIssues c) ↔ 50 < c.guestName.length) ∧
    (((FormField.checkInDate, msgInReq) ∈ validateIssues c) ↔ c.checkInDate.length < 1) ∧
    (((FormField.checkOutDate, msgOutReq) ∈ validateIssues c) ↔ c.checkOutDate.length < 1) ∧
    (((FormField.contactNumber, msgContact) ∈ validateIssues c) ↔
      contactNumberOk c.contactNumber = false) ∧
    (((FormField.email, msgEmail) ∈ validateIssues c) ↔ emailOk c.email = false) ∧
    (roomTypeOk c = true →
      (((FormField.checkOutDate, msgDateOrder) ∈ validateIssues c) ↔
        jsGreater (parseDate c.checkOutDate) (parseDate c.checkInDate) = false)) ∧
    (c.guestName.length < 2 → roomTypeOk c = true →
      jsGreater (parseDate c.checkOutDate) (parseDate c.checkInDate) = false →
      ((FormField.guestName, msgNameMin) ∈ validateIssues c ∧
       (FormField.checkOutDate, msgDateOrder) ∈ validateIssues c)) := by
  refine ⟨?_, ?_, ?_, ?_, ?_, ?_, ?_, ?_⟩
  · rw [mem_validateIssues]
    simp [msgNameMin, msgNameMax, msgRoomReq, msgRoomEnum, msgInReq, msgOutReq,
      msgContact, msgEmail, msgDateOrder]
  · rw [mem_validateIssues]
    simp [msgNameMin, msgNameMax, msgRoomReq, msgRoomEnum, msgInReq, msgOutReq,
      msgContact, msgEmail, msgDateOrder]
  · rw [mem_validateIssues]
    simp [msgNameMin, msgNameMax, msgRoomReq, msgRoomEnum, msgInReq, msgOutReq,
      msgContact, msgEmail, msgDateOrder]
  · rw [mem_validateIssues]
    simp [msgNameMin, msgNameMax, msgRoomReq, msgRoomEnum, msgInReq, msgOutReq,
      msgContact, msgEmail, msgDateOrder]
  · rw [mem_validateIssues]
    simp [msgNameMin, msgNameMax, msgRoomReq, msgRoomEnum, msgInReq, msgOutReq,
      msgContact, msgEmail, msgDateOrder]
  · rw [mem_validateIssues]
    simp [msgNameMin, msgNameMax, msgRoomReq, msgRoomEnum, msgInReq, msgOutReq,
      msgContact, msgEmail, msgDateOrder]
  · intro h
    rw [mem_validateIssues]
    simp [h, msgNameMin, msgNameMax, msgRoomReq, msgRoomEnum, msgInReq, msgOutReq,
      msgContact, msgEmail, msgDateOrder]
  · intro h1 h2 h3
    constructor <;> rw [mem_validateIssues] <;>
      simp [h1, h2, h3, msgNameMin, msgNameMax, msgRoomReq, msgRoomEnum, msgInReq, msgOutReq,
        msgContact, msgEmail, msgDateOrder]

/-- The cross-field error is omitted when the enum field aborts the object
parse: with no room type selected and equal (valid) dates, the only issue
reported is the roomType one, although the date comparison fails. -/
theorem refine_skipped_on_abort_counterexample :
    jsGreater (parseDate noRoomEqualDates.checkOutDate) (parseDate noRoomEqualDates.checkInDate)
      = false ∧
    validateIssues noRoomEqualDates = [(FormField.roomType, msgRoomReq)] := by
  exact ⟨by decide, by decide⟩

/-- Witness for `all_field_errors_reported`: a candidate with a too-short
name, a recognized room type and equal dates gets both the guestName error
and the cross-field checkOutDate error. -/
theorem all_field_errors_reported_witness :
    (FormField.guestName, msgNameMin) ∈ validateIssues shortNameEqualDates ∧
    (FormField.checkOutDate, msgDateOrder) ∈ validateIssues shortNameEqualDates := by
  exact (all_field_errors_reported shortNameEqualDates).2.2.2.2.2.2.2
    (by decide) (by decide) (by decide)

/-- Claim C1 (amended): when both dates parse and the enum field did not
abort the object parse, a check-out date not strictly later than the
check-in date fails validation with the error attributed to checkOutDate;
a strictly later check-out date passes the cross-field check. -/
theorem checkout_after_checkin_rule (c : Candidate) (a b : Nat)
    (hin : parseDate c.checkInDate = some a)
    (hout : parseDate c.checkOutDate = some b) :
    (roomTypeOk c = true → b ≤ a →
      validateIssues c ≠ [] ∧ (FormField.checkOutDate, msgDateOrder) ∈ validateIssues c) ∧
    (a < b → refineIssues c = []) := by
  constructor
  · intro hrt hba
    have hjs : jsGreater (parseDate c.checkOutDate) (parseDate c.checkInDate) = false := by
      rw [hin, hout]; simp [jsGreater]; omega
    have hmem : (FormField.checkOutDate, msgDateOrder) ∈ validateIssues c := by
      rw [mem_validateIssues]
      exact Or.inr (Or.inr (Or.inr (Or.inr (Or.inr (Or.inr (Or.inr (Or.inr
        ⟨hrt, hjs, rfl, rfl⟩)))))))
    exact ⟨List.ne_nil_of_mem hmem, hmem⟩
  · intro hab
    have hjs : jsGreater (parseDate c.checkOutDate) (parseDate c.checkInDate) = true := by
      rw [hin, hout]; simp [jsGreater]; omega
    simp [refineIssues, hjs]

/-- Counterexample to claim C1 as stated: a candidate with equal valid
dates but no room type selected fails validation without any error on
checkOutDate. -/
theorem checkout_rule_abort_counterexample :
    jsGreater (parseDate noRoomEqualDates.checkOutDate) (parseDate noRoomEqualDates.checkInDate)
      = false ∧
    parseDate noRoomEqualDates.checkInDate = parseDate noRoomEqualDates.checkOutDate ∧
    validateIssues noRoomEqualDates = [(FormField.roomType, msgRoomReq)] := by
  exact ⟨by decide, by decide, by decide⟩

/-- Witness for `checkout_after_checkin_rule` at a concrete candidate with
equal dates. -/
theorem checkout_after_checkin_rule_witness :
    validateIssues shortNameEqualDates ≠ [] ∧
    (FormField.checkOutDate, msgDateOrder) ∈ validateIssues shortNameEqualDates := by
  exact (checkout_after_checkin_rule shortNameEqualDates 63921225600000 63921225600000
    (by decide) (by decide)).1 (by decide) (by decide)

/-- Claim C3 (amended): validation checks the two date fields only for
presence (non-emptiness), reporting emptiness on that field; a present but
unparseable date never yields an error on its own field — it surfaces only
through the cross-field comparison, whose error is attributed to
checkOutDate. -/
theorem date_presence_and_parse_reporting (c : Candidate) :
    (((FormField.checkInDate, msgInReq) ∈ validateIssues c) ↔ c.checkInDate.length < 1) ∧
    (((FormField.checkOutDate, msgOutReq) ∈ validateIssues c) ↔ c.checkOutDate.length < 1) ∧
    (1 ≤ c.checkInDate.length → ∀ m, (FormField.checkInDate, m) ∉ validateIssues c) ∧
    (roomTypeOk c = true → parseDate c.checkInDate = none →
      (FormField.checkOutDate, msgDateOrder) ∈ validateIssues c) := by
  refine ⟨?_, ?_, ?_, ?_⟩
  · rw [mem_validateIssues]
    simp [msgNameMin, msgNameMax, msgRoomReq, msgRoomEnum, msgInReq, msgOutReq,
      msgContact, msgEmail, msgDateOrder]
  · rw [mem_validateIssues]
    simp [msgNameMin, msgNameMax, msgRoomReq, msgRoomEnum, msgInReq, msgOutReq,
      msgContact, msgEmail, msgDateOrder]
  · intro h1 m hm
    rw [mem_validateIssues] at hm
    simp [msgNameMin, msgNameMax, msgRoomReq, msgRoomEnum, msgInReq, msgOutReq,
      msgContact, msgEmail, msgDateOrder] at hm
    omega
  · intro hrt hin
    have hjs : jsGreater (parseDate c.checkOutDate) (parseDate c.checkInDate) = false := by
      rw [hin]; cases parseDate c.checkOutDate <;> rfl
    rw [mem_validateIssues]
    exact Or.inr (Or.inr (Or.inr (Or.inr (Or.inr (Or.inr (Or.inr (Or.inr
      ⟨hrt, hjs, rfl, rfl⟩)))))))

/-- Counterexample to claim C3 as stated: a present but unparseable
check-in date produces no error on checkInDate; the only reported issue is
the cross-field error on checkOutDate. -/
theorem parse_error_not_on_own_field_counterexample :
    parseDate aliceBadCheckIn.checkInDate = none ∧
    1 ≤ aliceBadCheckIn.checkInDate.length ∧
    validateIssues aliceBadCheckIn = [(FormField.checkOutDate, msgDateOrder)] := by
  exact ⟨by decide, by decide, by decide⟩

/-- Witness for `date_presence_and_parse_reporting` at a concrete
candidate with an unparseable check-in date. -/
theorem date_presence_reporting_witness :
    (FormField.checkOutDate, msgDateOrder) ∈ validateIssues aliceBadCheckIn := by
  exact (date_presence_and_parse_reporting aliceBadCheckIn).2.2.2 (by decide) (by decide)

/-- Claim C9 (amended): for a candidate whose check-in date is present but
unparseable while the check-out date parses, provided the enum field did
not abort the object parse, the cross-field comparison is false and the
resulting error is reported on checkOutDate, never on checkInDate. -/
theorem invalid_checkin_reported_on_checkout (c : Candidate)
    (h1 : 1 ≤ c.checkInDate.length)
    (h2 : parseDate c.checkInDate = none)
    (_hsome : (parseDate c.checkOutDate).isSome = true)
    (h4 : roomTypeOk c = true) :
    jsGreater (parseDate c.checkOutDate) (parseDate c.checkInDate) = false ∧
    (FormField.checkOutDate, msgDateOrder) ∈ validateIssues c ∧
    (∀ m, (FormField.checkInDate, m) ∉ validateIssues c) := by
  have hjs : jsGreater (parseDate c.checkOutDate) (parseDate c.checkInDate) = false := by
    rw [h2]; cases parseDate c.checkOutDate <;> rfl
  refine ⟨hjs, ?_, ?_⟩
  · rw [mem_validateIssues]
    exact Or.inr (Or.inr (Or.inr (Or.inr (Or.inr (Or.inr (Or.inr (Or.inr
      ⟨h4, hjs, rfl, rfl⟩)))))))
  · intro m hm
    rw [mem_validateIssues] at hm
    simp [msgNameMin, msgNameMax, msgRoomReq, msgRoomEnum, msgInReq, msgOutReq,
      msgContact, msgEmail, msgDateOrder] at hm
    omega

/-- Counterexample to claim C9 as stated: with an unparseable check-in
date, a valid check-out date but no room type selected, the object parse
aborts and no error at all is reported on checkOutDate. -/
theorem invalid_checkin_abort_counterexample :
    1 ≤ noRoomBadCheckIn.checkInDate.length ∧
    parseDate noRoomBadCheckIn.checkInDate = none ∧
    (parseDate noRoomBadCheckIn.checkOutDate).isSome = true ∧
    validateIssues noRoomBadCheckIn = [(FormField.roomType, msgRoomReq)] := by
  exact ⟨by decide, by decide, by decide, by decide⟩

/-- Witness for `invalid_checkin_reported_on_checkout` at a concrete
candidate. -/
theorem invalid_checkin_reported_on_checkout_witness :
    jsGreater (parseDate aliceBadCheckIn.checkOutDate) (parseDate aliceBadCheckIn.checkInDate)
      = false ∧
    (FormField.checkOutDate, msgDateOrder) ∈ validateIssues aliceBadCheckIn := by
  have h := invalid_checkin_reported_on_checkout aliceBadCheckIn
    (by decide) (by decide) (by decide) (by decide)
  exact ⟨h.1, h.2.1⟩

/-- Claim C6: the roomType check passes exactly for the four enumeration
values; an absent or unrecognized value yields a field-scoped error, and a
successful parse carries the submitted room type through unchanged (no
default is substituted). -/
theorem roomType_enum_no_default (c : Candidate) (d : BookingFormData) :
    (roomTypeOk c = true ↔
      (c.roomType = some "Single" ∨ c.roomType = some "Double" ∨
       c.roomType = some "Deluxe" ∨ c.roomType = some "Suite")) ∧
    ((∃ m, (FormField.roomType, m) ∈ validateIssues c) ↔ roomTypeOk c = false) ∧
    (validate c = Except.ok d → c.roomType = some d.roomType) := by
  refine ⟨?_, ?_, ?_⟩
  · cases hrt : c.roomType with
    | none => simp [roomTypeOk, hrt]
    | some r => simp [roomTypeOk, hrt, roomTypes, List.contains, List.elem_eq_mem]
  · constructor
    · rintro ⟨m, hm⟩
      rw [mem_validateIssues] at hm
      simp [msgNameMin, msgNameMax, msgRoomReq, msgRoomEnum, msgInReq, msgOutReq,
        msgContact, msgEmail, msgDateOrder] at hm
      rcases hm with h | h
      · simp [roomTypeOk, h]
      · obtain ⟨⟨r, hr, hcon⟩, _⟩ := h
        simp [roomTypeOk, hr, hcon]
    · intro h
      cases hrt : c.roomType with
      | none =>
        refine ⟨msgRoomReq, ?_⟩
        rw [mem_validateIssues]
        exact Or.inr (Or.inr (Or.inl ⟨hrt, rfl, rfl⟩))
      | some r =>
        have hcon : roomTypes.contains r = false := by
          have := h; rw [roomTypeOk, hrt] at this; exact this
        refine ⟨msgRoomEnum, ?_⟩
        rw [mem_validateIssues]
        exact Or.inr (Or.inr (Or.inr (Or.inl ⟨⟨r, hrt, hcon⟩, rfl, rfl⟩)))
  · intro h
    unfold validate at h
    split at h
    · rename_i r heq
      cases h
      simp_all
    · cases h

/-- Witness for `roomType_enum_no_default`: the valid end-to-end candidate
keeps its submitted room type. -/
theorem roomType_enum_no_default_witness :
    validate jane = Except.ok janeData ∧ jane.roomType = some janeData.roomType := by
  exact ⟨rfl, (roomType_enum_no_default jane janeData).2.2 rfl⟩

/-- Claim C4 (amended): the record handed to `addBooking` by `onSubmit`
carries the submitted date strings verbatim — no canonicalization is
applied on the way from the form boundary to the store. -/
theorem dates_passed_through_verbatim (c : Candidate) (d : BookingFormData)
    (h : validate c = Except.ok d) :
    (submittedBooking d).checkInDate = c.checkInDate ∧
    (submittedBooking d).checkOutDate = c.checkOutDate := by
  unfold validate at h
  split at h
  · cases h; exact ⟨rfl, rfl⟩
  · cases h

/-- Counterexample to claim C4 as stated: two accepted candidates denoting
the same calendar instant for the check-out date are handed to the store
with different date representations, so the stored representation is the
raw submitted string, not a canonical calendar form. -/
theorem dates_not_canonicalized_counterexample :
    validate jane = Except.ok janeData ∧
    validate janeT = Except.ok janeTData ∧
    parseDate janeT.checkOutDate = parseDate jane.checkOutDate ∧
    (submittedBooking janeTData).checkOutDate ≠ (submittedBooking janeData).checkOutDate := by
  exact ⟨rfl, rfl, by decide, by decide⟩

/-- Witness for `dates_passed_through_verbatim` at the valid end-to-end
candidate. -/
theorem dates_passed_through_verbatim_witness :
    (submittedBooking janeData).checkInDate = jane.checkInDate ∧
    (submittedBooking janeData).checkOutDate = jane.checkOutDate := by
  exact dates_passed_through_verbatim jane janeData rfl

/-- Claim C10: in the submit handler, a throwing `addBooking` is caught:
the form is not reset, the room-type selection is kept and no navigation
is scheduled; exactly when `addBooking` returns normally do the reset, the
selection clearing and the scheduled navigation happen. -/
theorem onSubmit_error_handling (t : Bool) :
    (t = true → (onSubmit t).formReset = false ∧ (onSubmit t).roomTypeCleared = false ∧
      (onSubmit t).navigationScheduled = false ∧ (onSubmit t).toastError = true) ∧
    (t = false → (onSubmit t).formReset = true ∧ (onSubmit t).roomTypeCleared = true ∧
      (onSubmit t).navigationScheduled = true) ∧
    ((onSubmit t).formReset = true ∨ (onSubmit t).roomTypeCleared = true ∨
      (onSubmit t).navigationScheduled = true → t = false) := by
  cases t <;> simp [onSubmit]

/-- Witness for `onSubmit_error_handling` at both outcomes of the
`addBooking` call. -/
theorem onSubmit_error_handling_witness :
    (onSubmit true).formReset = false ∧ (onSubmit false).formReset = true := by
  exact ⟨((onSubmit_error_handling true).1 rfl).1, ((onSubmit_error_handling false).2.1 rfl).1⟩

/-- `find?` skips a prefix on which the predicate is everywhere false. -/
theorem find?_append_none {α : Type} (p : α → Bool) (l1 l2 : List α)
    (h : ∀ x ∈ l1, p x = false) : (l1 ++ l2).find? p = l2.find? p := by
  induction l1 with
  | nil => rfl
  | cons a t ih =>
    rw [List.cons_append, List.find?_cons_of_neg, ih (fun x hx => h x (List.mem_cons_of_mem a hx))]
    simp [h a (List.mem_cons_self a t)]

/-- Claim C7: a stored booking transitions only along the five lifecycle
edges; from the terminal statuses CheckedOut and Cancelled every attempt
fails with InvalidTransition and leaves the store unchanged. -/
theorem transition_lifecycle (st : Store) (i : Nat) (t : BookingStatus) (b : Booking)
    (hb : findById st i = some b) :
    ((∃ b2, (transition st i t).1 = Except.ok b2) ↔ allowedTransition b.status t = true) ∧
    (allowedTransition b.status t = true ↔
      ((b.status = BookingStatus.Confirmed ∧ t = BookingStatus.CheckedIn) ∨
       (b.status = BookingStatus.CheckedIn ∧ t = BookingStatus.CheckedOut) ∨
       (b.status = BookingStatus.Confirmed ∧ t = BookingStatus.Cancelled) ∨
       (b.status = BookingStatus.Pending ∧ t = BookingStatus.Confirmed) ∨
       (b.status = BookingStatus.Pending ∧ t = BookingStatus.Cancelled))) ∧
    ((b.status = BookingStatus.CheckedOut ∨ b.status = BookingStatus.Cancelled) →
      (transition st i t).1 = Except.error StoreError.InvalidTransition ∧
      (transition st i t).2 = st) := by
  refine ⟨?_, ?_, ?_⟩
  · unfold transition
    rw [hb]
    by_cases h : allowedTransition b.status t <;> simp [h]
  · cases hs : b.status <;> cases ht : t <;> simp [allowedTransition]
  · intro hterm
    have h : allowedTransition b.status t = false := by
      rcases hterm with h | h <;> rw [h] <;> cases t <;> rfl
    unfold transition
    rw [hb]
    simp [h]

/-- Witness for `transition_lifecycle`: any transition attempt out of a
checked-out booking fails with InvalidTransition and leaves the store as
it was. -/
theorem transition_lifecycle_witness :
    (transition storeCheckedOut 0 BookingStatus.Confirmed).1
      = Except.error StoreError.InvalidTransition ∧
    (transition storeCheckedOut 0 BookingStatus.Confirmed).2 = storeCheckedOut := by
  exact (transition_lifecycle storeCheckedOut 0 BookingStatus.Confirmed checkedOutBooking
    (by decide)).2.2 (Or.inl rfl)

/-- Claim C8: on a store whose ids are all below the fresh-id source,
`create` on a valid candidate returns a Confirmed booking with an id
distinct from every stored booking, retrievable by `findById`, preserves
the id invariant, and a repeated `create` with the same input gets a
different id; on validation failure the store is unchanged. -/
theorem create_fresh_id_and_lookup (st : Store) (c : Candidate) (now now2 : Nat)
    (hinv : idsBelowNext st) :
    (∀ e, validate c = Except.error e → (create st c now).2 = st) ∧
    (∀ d, validate c = Except.ok d →
      ∃ b st2, create st c now = (Except.ok b, st2) ∧
        b.status = BookingStatus.Confirmed ∧
        b.id = st.nextId ∧
        (∀ x ∈ st.bookings, x.id ≠ b.id) ∧
        findById st2 b.id = some b ∧
        idsBelowNext st2 ∧
        (∀ b2 st3, create st2 c now2 = (Except.ok b2, st3) → b2.id ≠ b.id)) := by
  constructor
  · intro e he
    unfold create
    rw [he]
  · intro d hd
    refine ⟨⟨st.nextId, d, BookingStatus.Confirmed, now⟩,
      ⟨st.bookings ++ [⟨st.nextId, d, BookingStatus.Confirmed, now⟩], st.nextId + 1⟩,
      ?_, rfl, rfl, ?_, ?_, ?_, ?_⟩
    · unfold create
      rw [hd]
    · intro x hx
      exact Nat.ne_of_lt (hinv x hx)
    · unfold findById
      rw [find?_append_none]
      · simp
      · intro x hx
        exact beq_eq_false_iff_ne.mpr (Nat.ne_of_lt (hinv x hx))
    · intro x hx
      simp only [List.mem_append, List.mem_singleton] at hx
      rcases hx with hx | hx
      · exact Nat.lt_succ_of_lt (hinv x hx)
      · subst hx
        exact Nat.lt_succ_self _
    · intro b2 st3 h2
      unfold create at h2
      rw [hd] at h2
      have h2f := congrArg Prod.fst h2
      simp at h2f
      rw [← h2f]
      simp

/-- Witness for `create_fresh_id_and_lookup`: creating the valid
end-to-end candidate in the empty store yields the Confirmed booking with
id 0, retrievable by `findById`. -/
theorem create_fresh_id_and_lookup_witness :
    (create storeEmpty jane 0).1 = Except.ok janeBooking ∧
    findById (create storeEmpty jane 0).2 0 = some janeBooking ∧
    janeBooking.status = BookingStatus.Confirmed := by
  obtain ⟨b, st2, h1, h2, h3, h4, h5, h6, h7⟩ :=
    (create_fresh_id_and_lookup storeEmpty jane 0 1 (fun x hx => by cases hx)).2 janeData rfl
  have hfst : (create storeEmpty jane 0).1 = Except.ok b := by rw [h1]
  have hob : Except.ok (ε := List (FormField × String)) janeBooking
      = (create storeEmpty jane 0).1 := rfl
  rw [hfst] at hob
  injection hob with hob2
  have hsnd : (create storeEmpty jane 0).2 = st2 := by rw [h1]
  have hb0 : b.id = 0 := h3
  refine ⟨?_, ?_, rfl⟩
  · rw [hfst, ← hob2]
  · rw [hsnd, hob2, ← hb0]
    exact h5
